import Mathlib

/-!
Verification of the session-lifecycle and message-exchange state machine of
src/src/components/Chat.jsx (the Chat React component).

The component's reactive state (sessionId, messages, input, isLoading,
historyList) together with the browser localStorage is embedded as a single
record ChatState.  Each event handler of the component becomes a pure state
transition; the outcome of the awaited fetch call (resolution vs rejection,
and the parsed JSON payload) is passed in as an explicit parameter, and each
transition also reports the list of backend calls it issued, so that claims
of the form "no server call is made" are expressible.  Promise rejection of
a fetch is modelled as the Except.error case; an HTTP response that resolved
is Except.ok carrying the parsed data (the code never inspects status codes).
-/

/-- A cited source attached to an assistant message (data.sources element). -/
structure Source where
  source : String
  link : String
  deriving DecidableEq

/-- A chat message as stored in the messages state: role, content and the
optional sources field (absent on user messages and on synthetic messages). -/
structure Message where
  role : String
  content : String
  sources : Option (List Source) := none
  deriving DecidableEq

/-- An entry of the historyList state: id and the formatted creation date,
as built at line 55 of Chat.jsx. -/
structure HistoryItem where
  id : String
  date : String
  deriving DecidableEq

/-- The component state plus localStorage, the latter modelled as an
association list from keys to stored strings (latest binding first). -/
structure ChatState where
  sessionId : Option String
  messages : List Message
  input : String
  isLoading : Bool
  historyList : List HistoryItem
  store : List (String × String)
  deriving DecidableEq

/-- localStorage.getItem: first (most recent) binding of the key, if any. -/
def getItem (st : List (String × String)) (key : String) : Option String :=
  (st.find? (fun p => p.1 == key)).map (fun p => p.2)

/-- localStorage.setItem: shadow any previous binding of the key. -/
def setItem (st : List (String × String)) (key value : String) :
    List (String × String) :=
  (key, value) :: st

/-- The canonical greeting message used at lines 52, 72 and 128 of Chat.jsx. -/
def greetingMessage : Message :=
  { role := "assistant"
    content := "Hello! I am your news assistant. Ask me anything about the latest news." }

/-- The fixed apology message appended on a failed send (line 160). -/
def apologyMessage : Message :=
  { role := "assistant"
    content := "Sorry, something went wrong. Please try again." }

/-- JavaScript String.prototype.trim: strip leading and trailing whitespace. -/
def jsTrim (s : String) : String :=
  ⟨((s.data.dropWhile Char.isWhitespace).reverse.dropWhile Char.isWhitespace).reverse⟩

/-- JSON.stringify of one history item (object with id and date fields). -/
def stringifyItem (item : HistoryItem) : String :=
  "\x7b\"id\":\"" ++ item.id ++ "\",\"date\":\"" ++ item.date ++ "\"\x7d"

/-- JSON.stringify of the history list (array of item objects). -/
def stringifyList (l : List HistoryItem) : String :=
  "[" ++ String.intercalate "," (l.map stringifyItem) ++ "]"

/-- The backend calls the component can issue, with their arguments. -/
inductive BackendCall where
  | createSessionCall
  | fetchHistoryCall (id : String)
  | chatCall (sessionId : Option String) (message : String)
  | deleteSessionCall (id : String)
  deriving DecidableEq

/-- Parsed body of a successful POST /chat response (data.answer, data.sources). -/
structure ChatResponse where
  answer : String
  sources : Option (List Source) := none
  deriving DecidableEq

/-- createSession (Chat.jsx lines 44-63).  result is the awaited fetch of
POST /session: Except.error for a rejected promise (caught at line 60, which
only logs), Except.ok with the sessionId field of the parsed body otherwise.
date stands for new Date().toLocaleString(). -/
def createSession (s : ChatState) (result : Except Unit String) (date : String) :
    ChatState × List BackendCall :=
  match result with
  | .error _ => (s, [.createSessionCall])
  | .ok newSessionId =>
      let newHistoryItem : HistoryItem := { id := newSessionId, date := date }
      let updatedList := newHistoryItem :: s.historyList
      ({ s with
          sessionId := some newSessionId
          messages := [greetingMessage]
          historyList := updatedList
          store := setItem (setItem s.store "chat_session_id" newSessionId)
                     "chat_history_list" (stringifyList updatedList) },
       [.createSessionCall])

/-- fetchHistory (Chat.jsx lines 65-77).  result is the awaited GET /history
fetch: Except.error for rejection (caught at line 74, which only logs),
Except.ok with the history field of the parsed body, none when the field is
absent.  An empty or absent history yields the greeting (lines 69-73). -/
def fetchHistory (s : ChatState) (id : String)
    (result : Except Unit (Option (List Message))) : ChatState × List BackendCall :=
  match result with
  | .error _ => (s, [.fetchHistoryCall id])
  | .ok (some h) =>
      if 0 < h.length then ({ s with messages := h }, [.fetchHistoryCall id])
      else ({ s with messages := [greetingMessage] }, [.fetchHistoryCall id])
  | .ok none => ({ s with messages := [greetingMessage] }, [.fetchHistoryCall id])

/-- handleLoadSession (Chat.jsx lines 83-88): no-op when id is already the
active session, else switch the active id, persist it and fetch history. -/
def handleLoadSession (s : ChatState) (id : String)
    (histResult : Except Unit (Option (List Message))) : ChatState × List BackendCall :=
  if s.sessionId = some id then (s, [])
  else
    let s1 := { s with sessionId := some id
                       store := setItem s.store "chat_session_id" id }
    fetchHistory s1 id histResult

/-- handleDeleteSession (Chat.jsx lines 90-117).  confirmed is the value of
window.confirm; deleteResult is the awaited DELETE /session fetch.  The
length guard (line 93) precedes both the confirm dialog and any fetch.  On a
rejected delete the catch at line 113 skips the whole local update.  When the
filtered list is empty (possible only with duplicate ids) the JS expression
nextSession.id throws inside the try, after the local update, and the catch
swallows it, so the state keeps the already-applied update. -/
def handleDeleteSession (s : ChatState) (id : String) (confirmed : Bool)
    (deleteResult : Except Unit Unit)
    (histResult : Except Unit (Option (List Message))) : ChatState × List BackendCall :=
  if s.historyList.length ≤ 1 then (s, [])
  else if confirmed = false then (s, [])
  else
    match deleteResult with
    | .error _ => (s, [.deleteSessionCall id])
    | .ok _ =>
        let updatedList := s.historyList.filter (fun item => item.id != id)
        let s1 := { s with
                      historyList := updatedList
                      store := setItem s.store "chat_history_list"
                                 (stringifyList updatedList) }
        if s.sessionId = some id then
          match updatedList.head? with
          | some nextSession =>
              let r := handleLoadSession s1 nextSession.id histResult
              (r.1, .deleteSessionCall id :: r.2)
          | none => (s1, [.deleteSessionCall id])
        else (s1, [.deleteSessionCall id])

/-- handleResetChat (Chat.jsx lines 119-133).  Returns immediately when no
session is active; otherwise, after confirmation, awaits the DELETE fetch
and resets the transcript to the greeting only when that fetch resolved
(the reset at line 128 is inside the try, after the await). -/
def handleResetChat (s : ChatState) (confirmed : Bool)
    (deleteResult : Except Unit Unit) : ChatState × List BackendCall :=
  match s.sessionId with
  | none => (s, [])
  | some sid =>
      if confirmed = false then (s, [])
      else
        match deleteResult with
        | .error _ => (s, [.deleteSessionCall sid])
        | .ok _ => ({ s with messages := [greetingMessage] }, [.deleteSessionCall sid])

/-- The synchronous prefix of sendMessage before its suspension point
(Chat.jsx lines 139-142): append the optimistic user message built from the
untrimmed input, clear the input field, raise isLoading. -/
def sendMessageStart (s : ChatState) : ChatState :=
  { s with
      messages := s.messages ++ [{ role := "user", content := s.input }]
      input := ""
      isLoading := true }

/-- sendMessage (Chat.jsx lines 135-164).  The guard at line 137 rejects a
blank (after trim) input or an in-flight request.  result is the awaited
POST /chat fetch; on resolution the assistant message carries data.answer
and data.sources, on rejection the fixed apology is appended; the finally
block clears isLoading on both paths.  The request body carries the
original input captured before the field was cleared (line 148). -/
def sendMessage (s : ChatState) (result : Except Unit ChatResponse) :
    ChatState × List BackendCall :=
  if jsTrim s.input = "" ∨ s.isLoading = true then (s, [])
  else
    let s1 := sendMessageStart s
    let call := BackendCall.chatCall s.sessionId s.input
    match result with
    | .ok data =>
        ({ s1 with
            messages := s1.messages ++
              [{ role := "assistant", content := data.answer, sources := data.sources }]
            isLoading := false }, [call])
    | .error _ =>
        ({ s1 with messages := s1.messages ++ [apologyMessage]
                   isLoading := false }, [call])

/-- The two operations that change the history directory, with their
environment parameters (fetch outcomes, confirm answer, formatted date). -/
inductive DirOp where
  | create (result : Except Unit String) (date : String)
  | delete (id : String) (confirmed : Bool) (deleteResult : Except Unit Unit)
      (histResult : Except Unit (Option (List Message)))

/-- Run one directory-changing operation on the state. -/
def applyDirOp (s : ChatState) (op : DirOp) : ChatState :=
  match op with
  | .create result date => (createSession s result date).1
  | .delete id confirmed dr hr => (handleDeleteSession s id confirmed dr hr).1

/-- Directory health: nonempty, and entry ids pairwise distinct (the spec's
data model declares directory entries unique by id). -/
def DirInvariant (s : ChatState) : Prop :=
  1 ≤ s.historyList.length ∧ (s.historyList.map HistoryItem.id).Nodup

instance (s : ChatState) : Decidable (DirInvariant s) := by
  unfold DirInvariant; infer_instance

/-- Checks that along the run every successful createSession response carries
an id not already present in the directory (the spec's BackendClient contract:
each create yields a fresh unique id). -/
def freshCreates : ChatState → List DirOp → Bool
  | _, [] => true
  | s, op :: ops =>
      (match op with
       | .create (.ok nid) _ => !((s.historyList.map HistoryItem.id).contains nid)
       | _ => true) && freshCreates (applyDirOp s op) ops

example : jsTrim " hi " = "hi" := by decide

example : jsTrim "  " = "" := by decide

example : stringifyList [{ id := "a", date := "d" }] = "[\x7b\"id\":\"a\",\"date\":\"d\"\x7d]" := by decide

/-! ### Helper lemmas about the store and the frame of each handler -/

theorem getItem_setItem_same (st : List (String × String)) (k v : String) :
    getItem (setItem st k v) k = some v := by
  simp [getItem, setItem, List.find?]

theorem getItem_setItem_other (st : List (String × String)) (k v k' : String)
    (h : k' ≠ k) : getItem (setItem st k v) k' = getItem st k' := by
  have hb : (k == k') = false := by
    cases hkk : k == k'
    · rfl
    · exact absurd (eq_comm.mp (eq_of_beq hkk)) h
  simp [getItem, setItem, List.find?, hb]

theorem fetchHistory_fields (s : ChatState) (id : String)
    (r : Except Unit (Option (List Message))) :
    (fetchHistory s id r).1.sessionId = s.sessionId ∧
    (fetchHistory s id r).1.input = s.input ∧
    (fetchHistory s id r).1.isLoading = s.isLoading ∧
    (fetchHistory s id r).1.historyList = s.historyList ∧
    (fetchHistory s id r).1.store = s.store := by
  rcases r with e | v
  · exact ⟨rfl, rfl, rfl, rfl, rfl⟩
  · rcases v with _ | h
    · exact ⟨rfl, rfl, rfl, rfl, rfl⟩
    · by_cases hl : 0 < h.length <;> simp [fetchHistory, hl]

theorem handleLoadSession_fields (s : ChatState) (id : String)
    (r : Except Unit (Option (List Message))) :
    (handleLoadSession s id r).1.input = s.input ∧
    (handleLoadSession s id r).1.isLoading = s.isLoading ∧
    (handleLoadSession s id r).1.historyList = s.historyList ∧
    getItem (handleLoadSession s id r).1.store "chat_history_list" =
      getItem s.store "chat_history_list" := by
  by_cases hg : s.sessionId = some id
  · simp [handleLoadSession, hg]
  · have hf := fetchHistory_fields
      { s with sessionId := some id, store := setItem s.store "chat_session_id" id } id r
    simp only [handleLoadSession, if_neg hg]
    refine ⟨hf.2.1, hf.2.2.1, hf.2.2.2.1, ?_⟩
    rw [hf.2.2.2.2]
    exact getItem_setItem_other _ _ _ _ (by decide)

/-! ### Concrete states used by witnesses and counterexamples -/

/-- A state with a single directory entry, that entry active. -/
def stOne : ChatState :=
  { sessionId := some "s1", messages := [greetingMessage], input := "",
    isLoading := false, historyList := [{ id := "s1", date := "d1" }], store := [] }

/-- A state with two directory entries, the first active. -/
def stTwo : ChatState :=
  { sessionId := some "s1", messages := [greetingMessage], input := "",
    isLoading := false,
    historyList := [{ id := "s1", date := "d1" }, { id := "s2", date := "d2" }],
    store := [("chat_session_id", "s1")] }

/-- A state whose transcript holds a greeting followed by a user turn. -/
def stReset : ChatState :=
  { sessionId := some "s1",
    messages := [greetingMessage, { role := "user", content := "hi" }],
    input := "", isLoading := false,
    historyList := [{ id := "s1", date := "d1" }], store := [] }

/-- A state with a request in flight (isLoading raised). -/
def stPending : ChatState :=
  { sessionId := some "s1", messages := [], input := "", isLoading := true,
    historyList := [{ id := "s1", date := "d1" }], store := [] }

/-- A state whose input field holds text with surrounding whitespace. -/
def stSend : ChatState :=
  { sessionId := some "s1", messages := [], input := " hi ", isLoading := false,
    historyList := [{ id := "s1", date := "d1" }], store := [] }

/-! ### C6 -/

/-- C6: when fetchHistory succeeds and the returned history is the empty
sequence, the transcript becomes exactly the canonical greeting, never the
empty sequence; when it succeeds with a non-empty history, the transcript is
replaced by that history verbatim. -/
theorem fetchHistory_empty_greeting_nonempty_verbatim :
    (∀ (s : ChatState) (id : String),
        (fetchHistory s id (.ok (some []))).1.messages = [greetingMessage]) ∧
    (∀ (s : ChatState) (id : String) (h : List Message), h ≠ [] →
        (fetchHistory s id (.ok (some h))).1.messages = h) := by
  constructor
  · intro s id
    simp [fetchHistory]
  · intro s id h hne
    simp [fetchHistory, List.length_pos.mpr hne]

theorem fetchHistory_empty_greeting_nonempty_verbatim_witness :
    (fetchHistory stOne "s1" (.ok (some []))).1.messages = [greetingMessage] ∧
    (fetchHistory stOne "s1" (.ok (some [apologyMessage]))).1.messages =
      [apologyMessage] :=
  ⟨fetchHistory_empty_greeting_nonempty_verbatim.1 stOne "s1",
   fetchHistory_empty_greeting_nonempty_verbatim.2 stOne "s1" [apologyMessage]
     (by decide)⟩

/-! ### C8 -/

/-- C8: when the user declines the confirmation dialog, deleteSession (on a
directory with at least two entries) and resetActiveSession (with an active
session) make no backend call and leave the whole state — directory,
persisted store, active id and transcript — unchanged. -/
theorem confirm_declined_noop :
    (∀ (s : ChatState) (id : String) (dr : Except Unit Unit)
        (hr : Except Unit (Option (List Message))),
        2 ≤ s.historyList.length →
        handleDeleteSession s id false dr hr = (s, [])) ∧
    (∀ (s : ChatState) (sid : String) (dr : Except Unit Unit),
        s.sessionId = some sid → handleResetChat s false dr = (s, [])) := by
  constructor
  · intro s id dr hr hlen
    have hgt : ¬ s.historyList.length ≤ 1 := by omega
    simp [handleDeleteSession, hgt]
  · intro s sid dr hs
    simp [handleResetChat, hs]

theorem confirm_declined_noop_witness :
    handleDeleteSession stTwo "s1" false (.ok ()) (.ok none) = (stTwo, []) ∧
    handleResetChat stTwo false (.ok ()) = (stTwo, []) :=
  ⟨confirm_declined_noop.1 stTwo "s1" (.ok ()) (.ok none) (by decide),
   confirm_declined_noop.2 stTwo "s1" (.ok ()) (by decide)⟩

/-! ### C10 -/

/-- C10: sendMessage clears the input field to the empty string in its
synchronous prefix, immediately after appending the optimistic user message
and before the request resolves; the input stays empty on both the success
and the failure path; and the message sent to the backend is the original,
untrimmed input captured before the field was cleared. -/
theorem sendMessage_clears_input_sends_untrimmed
    (s : ChatState) (result : Except Unit ChatResponse)
    (hin : jsTrim s.input ≠ "") (hload : s.isLoading = false) :
    (sendMessageStart s).input = "" ∧
    (sendMessageStart s).messages =
      s.messages ++ [{ role := "user", content := s.input }] ∧
    (sendMessage s result).1.input = "" ∧
    (sendMessage s result).2 = [BackendCall.chatCall s.sessionId s.input] := by
  refine ⟨rfl, rfl, ?_, ?_⟩ <;>
    cases result <;> simp [sendMessage, sendMessageStart, hin, hload]

theorem sendMessage_clears_input_sends_untrimmed_witness :
    jsTrim stSend.input ≠ "" ∧ stSend.isLoading = false ∧
    ((sendMessageStart stSend).input = "" ∧
     (sendMessageStart stSend).messages =
       stSend.messages ++ [{ role := "user", content := stSend.input }] ∧
     (sendMessage stSend (.error ())).1.input = "" ∧
     (sendMessage stSend (.error ())).2 =
       [BackendCall.chatCall stSend.sessionId stSend.input]) :=
  ⟨by decide, by decide,
   sendMessage_clears_input_sends_untrimmed stSend (.error ()) (by decide) (by decide)⟩

/-! ### C1 -/

/-- C1 counterexample: in a two-entry directory with the deletion confirmed,
a rejected DELETE /session fetch leaves the entry in the directory — nothing
is removed and nothing is persisted, refuting the claim that local removal
proceeds despite server failure. -/
theorem deleteSession_failure_entry_not_removed :
    2 ≤ stTwo.historyList.length ∧
    (handleDeleteSession stTwo "s1" true (.error ()) (.ok none)).1.historyList
      = stTwo.historyList ∧
    stTwo.historyList.map HistoryItem.id = ["s1", "s2"] ∧
    getItem (handleDeleteSession stTwo "s1" true (.error ()) (.ok none)).1.store
      "chat_history_list" = none := by decide

/-- C1 amended: for deleteSession invoked with directory length at least 2
and the user confirming, if the BackendClient.deleteSession call fails, the
catch handler only logs — the entry is NOT removed, the directory is not
re-persisted, and the whole state is left unchanged; removal happens only
when the server call succeeds. -/
theorem deleteSession_failure_no_local_change
    (s : ChatState) (id : String) (hr : Except Unit (Option (List Message)))
    (hlen : 2 ≤ s.historyList.length) :
    handleDeleteSession s id true (.error ()) hr =
      (s, [BackendCall.deleteSessionCall id]) := by
  have hgt : ¬ s.historyList.length ≤ 1 := by omega
  simp [handleDeleteSession, hgt]

theorem deleteSession_failure_no_local_change_witness :
    handleDeleteSession stTwo "s1" true (.error ()) (.ok none) =
      (stTwo, [BackendCall.deleteSessionCall "s1"]) :=
  deleteSession_failure_no_local_change stTwo "s1" (.ok none) (by decide)

/-! ### C2 -/

/-- C2 counterexample: with an active session and the reset confirmed, a
rejected DELETE /session fetch leaves the transcript untouched — it is not
reset to the greeting, refuting the claim that the reset happens regardless
of success or failure. -/
theorem resetChat_failure_keeps_transcript :
    stReset.sessionId = some "s1" ∧
    (handleResetChat stReset true (.error ())).1.messages = stReset.messages ∧
    (handleResetChat stReset true (.error ())).1.messages ≠ [greetingMessage] := by
  decide

/-- C2 amended: for resetActiveSession invoked with an active session and the
user confirming, the transcript is reset to the single canonical greeting
only when the BackendClient.deleteSession call succeeds; when the call fails
the catch handler only logs and the state is unchanged. -/
theorem resetChat_greeting_only_on_success
    (s : ChatState) (sid : String) (hs : s.sessionId = some sid) :
    (handleResetChat s true (.ok ())).1.messages = [greetingMessage] ∧
    handleResetChat s true (.error ()) =
      (s, [BackendCall.deleteSessionCall sid]) := by
  constructor <;> simp [handleResetChat, hs]

theorem resetChat_greeting_only_on_success_witness :
    (handleResetChat stReset true (.ok ())).1.messages = [greetingMessage] ∧
    handleResetChat stReset true (.error ()) =
      (stReset, [BackendCall.deleteSessionCall "s1"]) :=
  resetChat_greeting_only_on_success stReset "s1" (by decide)

/-! ### C3 -/

/-- C3 counterexample: createSession invoked while a request is in flight
(isLoading true) is not ignored — it still issues its backend call and
mutates the active session id, and it never touches the pending flag, so
mutating operations are not serialized by pending as claimed. -/
theorem createSession_runs_while_pending :
    stPending.isLoading = true ∧
    (createSession stPending (.ok "s2") "d2").2 = [BackendCall.createSessionCall] ∧
    (createSession stPending (.ok "s2") "d2").1.sessionId = some "s2" ∧
    (createSession stPending (.ok "s2") "d2").1.isLoading = true := by decide

/-- C3 amended: only sendMessage is serialized by the pending flag — it is
ignored (no state change, no backend call) while pending is true, raises the
flag in its synchronous prefix before the suspension point, and clears it on
both the success and the failure exit; createSession, loadSession,
deleteSession and resetActiveSession neither check nor modify the flag. -/
theorem only_sendMessage_serialized_by_pending :
    (∀ (s : ChatState) (r : Except Unit ChatResponse),
        s.isLoading = true → sendMessage s r = (s, [])) ∧
    (∀ (s : ChatState) (r : Except Unit ChatResponse),
        jsTrim s.input ≠ "" → s.isLoading = false →
        (sendMessageStart s).isLoading = true ∧
        (sendMessage s r).1.isLoading = false) ∧
    (∀ (s : ChatState) (r : Except Unit String) (d : String),
        (createSession s r d).1.isLoading = s.isLoading) ∧
    (∀ (s : ChatState) (id : String) (hr : Except Unit (Option (List Message))),
        (handleLoadSession s id hr).1.isLoading = s.isLoading) ∧
    (∀ (s : ChatState) (id : String) (c : Bool) (dr : Except Unit Unit)
        (hr : Except Unit (Option (List Message))),
        (handleDeleteSession s id c dr hr).1.isLoading = s.isLoading) ∧
    (∀ (s : ChatState) (c : Bool) (dr : Except Unit Unit),
        (handleResetChat s c dr).1.isLoading = s.isLoading) := by
  refine ⟨?_, ?_, ?_, ?_, ?_, ?_⟩
  · intro s r h
    simp [sendMessage, h]
  · intro s r hin hload
    refine ⟨rfl, ?_⟩
    cases r <;> simp [sendMessage, sendMessageStart, hin, hload]
  · intro s r d
    cases r <;> rfl
  · intro s id hr
    exact (handleLoadSession_fields s id hr).2.1
  · intro s id c dr hr
    by_cases h1 : s.historyList.length ≤ 1
    · simp [handleDeleteSession, h1]
    · by_cases hc : c = false
      · simp [handleDeleteSession, h1, hc]
      · rcases dr with e | u
        · simp [handleDeleteSession, h1, hc]
        · simp only [handleDeleteSession, if_neg h1, if_neg hc]
          by_cases hact : s.sessionId = some id
          · simp only [if_pos hact]
            cases hh : (s.historyList.filter (fun item => item.id != id)).head? with
            | none => rfl
            | some nextSession =>
                simp only []
                exact (handleLoadSession_fields _ nextSession.id hr).2.1
          · simp [if_neg hact]
  · intro s c dr
    cases hs : s.sessionId with
    | none => simp [handleResetChat, hs]
    | some sid =>
        by_cases hc : c = false
        · simp [handleResetChat, hs, hc]
        · rcases dr with e | u <;> simp [handleResetChat, hs, hc]

theorem only_sendMessage_serialized_by_pending_witness :
    sendMessage stPending (.error ()) = (stPending, []) ∧
    ((sendMessageStart stSend).isLoading = true ∧
      (sendMessage stSend (.error ())).1.isLoading = false) ∧
    (createSession stPending (.ok "s2") "d2").1.isLoading = stPending.isLoading ∧
    (handleLoadSession stPending "s2" (.ok none)).1.isLoading = stPending.isLoading ∧
    (handleDeleteSession stTwo "s1" true (.ok ()) (.ok none)).1.isLoading =
      stTwo.isLoading ∧
    (handleResetChat stReset true (.ok ())).1.isLoading = stReset.isLoading :=
  ⟨only_sendMessage_serialized_by_pending.1 stPending (.error ()) (by decide),
   only_sendMessage_serialized_by_pending.2.1 stSend (.error ()) (by decide) (by decide),
   only_sendMessage_serialized_by_pending.2.2.1 stPending (.ok "s2") "d2",
   only_sendMessage_serialized_by_pending.2.2.2.1 stPending "s2" (.ok none),
   only_sendMessage_serialized_by_pending.2.2.2.2.1 stTwo "s1" true (.ok ()) (.ok none),
   only_sendMessage_serialized_by_pending.2.2.2.2.2 stReset true (.ok ())⟩

/-! ### C4 -/

/-- C4 counterexample: with input " hi " — non-empty after trimming — the
optimistic user message is built from the raw input, so its content is the
untrimmed " hi " and not the trimmed "hi" the claim requires. -/
theorem sendMessage_user_content_untrimmed :
    jsTrim stSend.input = "hi" ∧
    ((sendMessage stSend (.error ())).1.messages.map Message.content).head? =
      some " hi " ∧
    (" hi " : String) ≠ "hi" := by decide

/-- C4 amended: for every transcript of length n and every input non-empty
after trimming, sendMessage (with pending false) appends exactly one user
message and then exactly one assistant message — the server answer on
success, the fixed apology with no sources on failure — so the length
becomes n+2 and the user message is never rolled back; the appended user
message's content equals the ORIGINAL (untrimmed) input, not the trimmed
one. -/
theorem sendMessage_appends_user_then_assistant
    (s : ChatState) (result : Except Unit ChatResponse)
    (hin : jsTrim s.input ≠ "") (hload : s.isLoading = false) :
    ∃ bot : Message,
      (sendMessage s result).1.messages =
        s.messages ++ [{ role := "user", content := s.input }, bot] ∧
      (sendMessage s result).1.messages.length = s.messages.length + 2 ∧
      (result = .error () → bot = apologyMessage) ∧
      (∀ data : ChatResponse, result = .ok data →
          bot = { role := "assistant", content := data.answer,
                  sources := data.sources }) := by
  cases result with
  | error e =>
      refine ⟨apologyMessage, ?_, ?_, fun _ => rfl, fun data hd => by cases hd⟩
      · simp [sendMessage, sendMessageStart, hin, hload]
      · simp [sendMessage, sendMessageStart, hin, hload]
  | ok data =>
      refine ⟨{ role := "assistant", content := data.answer,
                sources := data.sources }, ?_, ?_, ?_, ?_⟩
      · simp [sendMessage, sendMessageStart, hin, hload]
      · simp [sendMessage, sendMessageStart, hin, hload]
      · intro h
        cases h
      · intro d hd
        injection hd with hd
        subst hd
        rfl

theorem sendMessage_appends_user_then_assistant_witness :
    jsTrim stSend.input ≠ "" ∧ stSend.isLoading = false ∧
    (∃ bot : Message,
      (sendMessage stSend (.error ())).1.messages =
        stSend.messages ++ [{ role := "user", content := stSend.input }, bot] ∧
      (sendMessage stSend (.error ())).1.messages.length =
        stSend.messages.length + 2 ∧
      ((.error () : Except Unit ChatResponse) = .error () → bot = apologyMessage) ∧
      (∀ data : ChatResponse, (.error () : Except Unit ChatResponse) = .ok data →
          bot = { role := "assistant", content := data.answer,
                  sources := data.sources })) :=
  ⟨by decide, by decide,
   sendMessage_appends_user_then_assistant stSend (.error ()) (by decide) (by decide)⟩

/-! ### C9 -/

theorem handleDeleteSession_ok (s : ChatState) (id : String)
    (hr : Except Unit (Option (List Message)))
    (hgt : ¬ s.historyList.length ≤ 1) :
    (handleDeleteSession s id true (.ok ()) hr).1.historyList =
      s.historyList.filter (fun item => item.id != id) ∧
    getItem (handleDeleteSession s id true (.ok ()) hr).1.store
        "chat_history_list" =
      some (stringifyList (s.historyList.filter (fun item => item.id != id))) := by
  have hs1 : getItem (setItem s.store "chat_history_list"
      (stringifyList (s.historyList.filter (fun item => item.id != id))))
      "chat_history_list" =
      some (stringifyList (s.historyList.filter (fun item => item.id != id))) :=
    getItem_setItem_same _ _ _
  simp only [handleDeleteSession, if_neg hgt]
  by_cases hact : s.sessionId = some id
  · simp only [if_pos hact]
    cases hh : (s.historyList.filter (fun item => item.id != id)).head? with
    | none => exact ⟨rfl, hs1⟩
    | some nextSession =>
        have hf := handleLoadSession_fields
          { s with historyList := s.historyList.filter (fun item => item.id != id)
                   store := setItem s.store "chat_history_list"
                     (stringifyList (s.historyList.filter (fun item => item.id != id))) }
          nextSession.id hr
        exact ⟨hf.2.2.1, hf.2.2.2.trans hs1⟩
  · simp only [if_neg hact]
    exact ⟨rfl, hs1⟩

/-- C9: the two operations that change the in-memory directory list —
createSession's prepend and deleteSession's removal — write the JSON
serialization of the new list to the persistent store under the key
"chat_history_list" in the same step, so afterwards the persisted directory
equals the in-memory directory. -/
theorem directory_persisted_with_update :
    (∀ (s : ChatState) (nid date : String),
        getItem (createSession s (.ok nid) date).1.store "chat_history_list" =
          some (stringifyList (createSession s (.ok nid) date).1.historyList)) ∧
    (∀ (s : ChatState) (id : String) (hr : Except Unit (Option (List Message))),
        2 ≤ s.historyList.length →
        getItem (handleDeleteSession s id true (.ok ()) hr).1.store
            "chat_history_list" =
          some (stringifyList
            (handleDeleteSession s id true (.ok ()) hr).1.historyList)) := by
  constructor
  · intro s nid date
    simp only [createSession]
    exact getItem_setItem_same _ _ _
  · intro s id hr hlen
    have hgt : ¬ s.historyList.length ≤ 1 := by omega
    have h := handleDeleteSession_ok s id hr hgt
    rw [h.1]
    exact h.2

theorem directory_persisted_with_update_witness :
    getItem (createSession stOne (.ok "s2") "d2").1.store "chat_history_list" =
      some (stringifyList (createSession stOne (.ok "s2") "d2").1.historyList) ∧
    getItem (handleDeleteSession stTwo "s1" true (.ok ()) (.ok none)).1.store
        "chat_history_list" =
      some (stringifyList
        (handleDeleteSession stTwo "s1" true (.ok ()) (.ok none)).1.historyList) :=
  ⟨directory_persisted_with_update.1 stOne "s2" "d2",
   directory_persisted_with_update.2 stTwo "s1" (.ok none) (by decide)⟩

/-! ### C5 -/

theorem filter_ne_id_of_not_mem (l : List HistoryItem) (id : String)
    (h : id ∉ l.map HistoryItem.id) :
    l.filter (fun item => item.id != id) = l := by
  apply List.filter_eq_self.mpr
  intro b hb
  have hbid : b.id ≠ id := by
    intro hbid
    exact h (hbid ▸ List.mem_map_of_mem HistoryItem.id hb)
  simpa [bne_iff_ne] using hbid

theorem length_le_filter_ne_id_succ (l : List HistoryItem) (id : String)
    (hnd : (l.map HistoryItem.id).Nodup) :
    l.length ≤ (l.filter (fun item => item.id != id)).length + 1 := by
  induction l with
  | nil => simp
  | cons a t ih =>
      simp only [List.map_cons, List.nodup_cons] at hnd
      by_cases ha : a.id = id
      · have hall : t.filter (fun item => item.id != id) = t :=
          filter_ne_id_of_not_mem t id (ha ▸ hnd.1)
        have hpa : (a.id != id) = false := by simp [ha]
        simp [List.filter_cons, hpa, hall]
      · have hpa : (a.id != id) = true := by simp [ha]
        have := ih hnd.2
        simp only [List.filter_cons, hpa, if_pos, List.length_cons]
        omega

theorem nodup_filter_ne_id (l : List HistoryItem) (id : String)
    (hnd : (l.map HistoryItem.id).Nodup) :
    ((l.filter (fun item => item.id != id)).map HistoryItem.id).Nodup :=
  hnd.sublist (List.Sublist.map HistoryItem.id (List.filter_sublist l))

theorem dirInvariant_step (s : ChatState) (op : DirOp)
    (hinv : DirInvariant s) (hfresh : freshCreates s [op] = true) :
    DirInvariant (applyDirOp s op) := by
  cases op with
  | create result date =>
      cases result with
      | error e => exact hinv
      | ok nid =>
          have hmem : nid ∉ s.historyList.map HistoryItem.id := by
            simp only [freshCreates, Bool.and_true, Bool.not_eq_true'] at hfresh
            simpa [List.contains_iff_exists_mem_beq, beq_iff_eq] using hfresh
          have hforall : ∀ x ∈ s.historyList, ¬ x.id = nid := by
            intro x hx hxid
            exact hmem (hxid ▸ List.mem_map_of_mem HistoryItem.id hx)
          constructor
          · simp [applyDirOp, createSession]
          · simpa [applyDirOp, createSession, List.nodup_cons] using
              ⟨hforall, hinv.2⟩
  | delete id confirmed dr hr =>
      by_cases h1 : s.historyList.length ≤ 1
      · simpa [applyDirOp, handleDeleteSession, h1] using hinv
      · by_cases hc : confirmed = false
        · simpa [applyDirOp, handleDeleteSession, h1, hc] using hinv
        · rcases dr with e | u
          · simpa [applyDirOp, handleDeleteSession, h1, hc] using hinv
          · have hcl : confirmed = true := by
              cases confirmed
              · exact absurd rfl hc
              · rfl
            subst hcl
            have hlist := (handleDeleteSession_ok s id hr h1).1
            constructor
            · rw [applyDirOp, hlist]
              have := length_le_filter_ne_id_succ s.historyList id hinv.2
              omega
            · rw [applyDirOp, hlist]
              exact nodup_filter_ne_id s.historyList id hinv.2

theorem dirInvariant_fold (ops : List DirOp) (s : ChatState)
    (hinv : DirInvariant s) (hfresh : freshCreates s ops = true) :
    DirInvariant (ops.foldl applyDirOp s) := by
  induction ops generalizing s with
  | nil => exact hinv
  | cons op rest ih =>
      simp only [freshCreates, Bool.and_eq_true] at hfresh
      have hstep : freshCreates s [op] = true := by
        simp only [freshCreates, Bool.and_true]
        exact hfresh.1
      exact ih (applyDirOp s op) (dirInvariant_step s op hinv hstep) hfresh.2

/-- C5: on a directory with exactly one entry, deleteSession is rejected by
the length guard before the confirm dialog and before any backend call, and
leaves the directory, active id, transcript and store unchanged; and under
any sequence of createSession/deleteSession operations started from a
well-formed nonempty directory (entry ids distinct, created ids fresh, per
the spec's data model and BackendClient contract) the directory keeps at
least one entry. -/
theorem deleteSession_last_guard_and_directory_nonempty :
    (∀ (s : ChatState) (id : String) (c : Bool) (dr : Except Unit Unit)
        (hr : Except Unit (Option (List Message))),
        s.historyList.length = 1 →
        handleDeleteSession s id c dr hr = (s, [])) ∧
    (∀ (ops : List DirOp) (s : ChatState),
        DirInvariant s → freshCreates s ops = true →
        1 ≤ (ops.foldl applyDirOp s).historyList.length) := by
  constructor
  · intro s id c dr hr hlen
    have h1 : s.historyList.length ≤ 1 := by omega
    simp [handleDeleteSession, h1]
  · intro ops s hinv hfresh
    exact (dirInvariant_fold ops s hinv hfresh).1

theorem deleteSession_last_guard_and_directory_nonempty_witness :
    handleDeleteSession stOne "s1" true (.ok ()) (.ok none) = (stOne, []) ∧
    1 ≤ (([DirOp.create (.ok "s2") "d2",
           DirOp.delete "s1" true (.ok ()) (.ok none)].foldl applyDirOp
             stOne).historyList.length) :=
  ⟨deleteSession_last_guard_and_directory_nonempty.1 stOne "s1" true (.ok ())
     (.ok none) (by decide),
   deleteSession_last_guard_and_directory_nonempty.2
     [DirOp.create (.ok "s2") "d2", DirOp.delete "s1" true (.ok ()) (.ok none)]
     stOne (by decide) (by decide)⟩

/-! ### C7 -/

/-- C7: deleting the currently active session from a directory with at least
two entries (ids distinct, per the spec's data model), with the server call
succeeding, removes the entry from the directory, makes the first entry of
the updated directory the active session, persists that id under
"chat_session_id", and reloads the transcript via fetchHistory on that id
(shown here for a fetch returning a non-empty history verbatim); exactly the
delete call and the history fetch for the new id are issued. -/
theorem deleteSession_active_switches_to_first
    (s : ChatState) (id : String) (h : List Message)
    (hlen : 2 ≤ s.historyList.length)
    (hnd : (s.historyList.map HistoryItem.id).Nodup)
    (hact : s.sessionId = some id)
    (hne : h ≠ []) :
    ∃ next : HistoryItem,
      (s.historyList.filter (fun item => item.id != id)).head? = some next ∧
      (handleDeleteSession s id true (.ok ()) (.ok (some h))).1.historyList =
        s.historyList.filter (fun item => item.id != id) ∧
      (handleDeleteSession s id true (.ok ()) (.ok (some h))).1.sessionId =
        some next.id ∧
      getItem (handleDeleteSession s id true (.ok ()) (.ok (some h))).1.store
        "chat_session_id" = some next.id ∧
      getItem (handleDeleteSession s id true (.ok ()) (.ok (some h))).1.store
        "chat_history_list" =
        some (stringifyList (s.historyList.filter (fun item => item.id != id))) ∧
      (handleDeleteSession s id true (.ok ()) (.ok (some h))).1.messages = h ∧
      (handleDeleteSession s id true (.ok ()) (.ok (some h))).2 =
        [BackendCall.deleteSessionCall id, BackendCall.fetchHistoryCall next.id] := by
  have hgt : ¬ s.historyList.length ≤ 1 := by omega
  have hflne : s.historyList.filter (fun item => item.id != id) ≠ [] := by
    intro hnil
    have hle := length_le_filter_ne_id_succ s.historyList id hnd
    rw [hnil] at hle
    simp at hle
    omega
  obtain ⟨next, rest, hfl⟩ := List.exists_cons_of_ne_nil hflne
  have hnextmem : next ∈ s.historyList.filter (fun item => item.id != id) := by
    rw [hfl]
    exact List.mem_cons_self next rest
  have hnextne : ¬ id = next.id := by
    have hb := (List.mem_filter.mp hnextmem).2
    rw [bne_iff_ne] at hb
    intro he
    exact hb he.symm
  have hlpos : 0 < h.length := List.length_pos.mpr hne
  have key : handleDeleteSession s id true (.ok ()) (.ok (some h)) =
      ({ s with
           sessionId := some next.id
           messages := h
           historyList := s.historyList.filter (fun item => item.id != id)
           store := setItem (setItem s.store "chat_history_list"
                     (stringifyList
                       (s.historyList.filter (fun item => item.id != id))))
                     "chat_session_id" next.id },
       [BackendCall.deleteSessionCall id, BackendCall.fetchHistoryCall next.id]) := by
    simp only [handleDeleteSession, if_neg hgt, hact, hfl]
    simp [handleLoadSession, fetchHistory, hnextne, hlpos, hfl]
  refine ⟨next, by rw [hfl]; rfl, ?_, ?_, ?_, ?_, ?_, ?_⟩
  · rw [key]
  · rw [key]
  · rw [key]
    exact getItem_setItem_same _ _ _
  · rw [key]
    exact (getItem_setItem_other _ _ _ _ (by decide)).trans
      (getItem_setItem_same _ _ _)
  · rw [key]
  · rw [key]

theorem deleteSession_active_switches_to_first_witness :
    2 ≤ stTwo.historyList.length ∧
    (stTwo.historyList.map HistoryItem.id).Nodup ∧
    stTwo.sessionId = some "s1" ∧
    ([apologyMessage] : List Message) ≠ [] ∧
    (∃ next : HistoryItem,
      (stTwo.historyList.filter (fun item => item.id != "s1")).head? = some next ∧
      (handleDeleteSession stTwo "s1" true (.ok ())
        (.ok (some [apologyMessage]))).1.historyList =
        stTwo.historyList.filter (fun item => item.id != "s1") ∧
      (handleDeleteSession stTwo "s1" true (.ok ())
        (.ok (some [apologyMessage]))).1.sessionId = some next.id ∧
      getItem (handleDeleteSession stTwo "s1" true (.ok ())
        (.ok (some [apologyMessage]))).1.store "chat_session_id" = some next.id ∧
      getItem (handleDeleteSession stTwo "s1" true (.ok ())
        (.ok (some [apologyMessage]))).1.store "chat_history_list" =
        some (stringifyList (stTwo.historyList.filter (fun item => item.id != "s1"))) ∧
      (handleDeleteSession stTwo "s1" true (.ok ())
        (.ok (some [apologyMessage]))).1.messages = [apologyMessage] ∧
      (handleDeleteSession stTwo "s1" true (.ok ())
        (.ok (some [apologyMessage]))).2 =
        [BackendCall.deleteSessionCall "s1", BackendCall.fetchHistoryCall next.id]) :=
  ⟨by decide, by decide, by decide, by decide,
   deleteSession_active_switches_to_first stTwo "s1" [apologyMessage]
     (by decide) (by decide) (by decide) (by decide)⟩
